import Mathlib

/-!
Shallow embedding of two Keras model builders from the edward2 baselines:

* `baselines/cifar10/batchensemble_model.py`
  (`ensemble_resnet_layer`, `ensemble_resnet_v1`), and
* `baselines/imagenet/deterministic_model.py`
  (`identity_block`, `conv_block`, `resnet50`).

Both builders are pure graph constructors: each Keras layer application
creates one graph node consuming previously created nodes.  We model a
computation graph as a list of nodes in creation order; a node records the
layer operation (with its configuration arguments) and the ids (list
indices) of its input nodes.  Applying a layer appends one node and returns
its id.  Real-valued configuration (dropout rates, initializer parameters,
regularization coefficients) is modelled with `ℚ`; the Python code only
compares these against `0` and negates them.
-/

/-- Weight initializers that appear in the two source files
(`ed.initializers.RandomSign`, `tf.keras.initializers.RandomNormal`,
and the `'he_normal'` string shorthand). -/
inductive Init where
  | randomSign (prob : ℚ)
  | randomNormal (mean stddev : ℚ)
  | heNormal
deriving DecidableEq

/-- One layer operation together with its configuration arguments, covering
every layer constructor used by the two source files. -/
inductive NodeOp where
  | input (shape : List ℕ)
  | zeroPadding2D (padding : ℕ × ℕ) (name : String)
  | conv2D (filters : ℕ) (kernel_size : ℕ × ℕ) (strides : ℕ × ℕ)
      (padding : String) (use_bias : Bool) (kernel_init : Init) (name : String)
  | batchNorm (axis : Option ℕ) (momentum epsilon : ℚ) (name : Option String)
  | activation (act : String)
  | maxPooling2D (pool_size strides : ℕ × ℕ) (padding : String)
  | add
  | globalAveragePooling2D (name : String)
  | dense (units : ℕ) (activation : Option String) (kernel_init : Init) (name : String)
  | dropout (rate : ℚ) (training : Bool)
  | batchEnsembleConv2D (filters kernel_size strides : ℕ)
      (alpha_init gamma_init : Init) (padding : String) (use_bias : Bool)
      (kernel_init : Init) (num_models : ℕ) (l2 : ℚ)
  | batchEnsembleDense (units : ℕ) (alpha_init gamma_init : Init)
      (activation : Option String) (kernel_init : Init) (num_models : ℕ) (l2 : ℚ)
  | averagePooling2D (pool_size : ℕ)
  | flatten
deriving DecidableEq

/-- A graph node: a layer operation applied to the nodes with the given ids. -/
structure Node where
  op : NodeOp
  ins : List ℕ
deriving DecidableEq

/-- A computation graph: nodes in creation order, node id = list index. -/
abbrev Graph := List Node

/-- Apply a layer: append one node to the graph and return its id. -/
def addNode (g : Graph) (op : NodeOp) (ins : List ℕ) : Graph × ℕ :=
  (g ++ [⟨op, ins⟩], g.length)

/-- A finished `tf.keras.Model`: the graph plus input and output node ids. -/
structure Model where
  graph : Graph
  inputs : ℕ
  outputs : ℕ
deriving DecidableEq

/-! ### `baselines/cifar10/batchensemble_model.py` -/

/-- `ensemble_resnet_layer` (batchensemble_model.py, lines 31-84):
BatchEnsemble 2D Convolution-Batch Normalization-Activation stack builder.
The Python defaults are `filters=16`, `kernel_size=3`, `strides=1`,
`num_models=1`, `random_sign_init=1.0`, `activation='relu'`,
`dropout_rate=0.`, `l2=0.`; call sites below pass every argument
explicitly, substituting the default where the Python call omits one. -/
def ensemble_resnet_layer (g : Graph) (inputs : ℕ) (filters kernel_size strides num_models : ℕ)
    (random_sign_init : ℚ) (activation : Option String) (dropout_rate l2 : ℚ) :
    Graph × ℕ :=
  let alpha_initializer : Init :=
    if random_sign_init > 0 then .randomSign random_sign_init
    else .randomNormal 1 (-random_sign_init)
  let gamma_initializer : Init :=
    if random_sign_init > 0 then .randomSign random_sign_init
    else .randomNormal 1 (-random_sign_init)
  let p0 := if dropout_rate > 0 then addNode g (.dropout dropout_rate true) [inputs]
            else (g, inputs)
  let p1 := addNode p0.1
    (.batchEnsembleConv2D filters kernel_size strides alpha_initializer gamma_initializer
      "same" false .heNormal num_models l2) [p0.2]
  let p2 := addNode p1.1 (.batchNorm none (9/10) (1/100000) none) [p1.2]
  match activation with
  | some a => addNode p2.1 (.activation a) [p2.2]
  | none => p2

/-- Body of the double `for` loop of `ensemble_resnet_v1`
(batchensemble_model.py, lines 130-162), for one `(stack, res_block)` pair:
two main-path ensemble layers, an optional 1x1 projection shortcut layer for
the first block of stacks 1 and 2, the residual add, and the final relu. -/
def resBlockBody (g : Graph) (x : ℕ) (filters num_models : ℕ)
    (random_sign_init dropout_rate l2 : ℚ) (stack res_block : ℕ) : Graph × ℕ :=
  let strides := if stack > 0 ∧ res_block = 0 then 2 else 1
  let py := ensemble_resnet_layer g x filters 3 strides num_models
    random_sign_init (some "relu") dropout_rate l2
  let py2 := ensemble_resnet_layer py.1 py.2 filters 3 1 num_models
    random_sign_init none dropout_rate l2
  let px :=
    if stack > 0 ∧ res_block = 0 then
      ensemble_resnet_layer py2.1 x filters 1 strides num_models
        random_sign_init none dropout_rate l2
    else (py2.1, x)
  let pa := addNode px.1 .add [px.2, py2.2]
  addNode pa.1 (.activation "relu") [pa.2]

/-- The inner `for res_block in range(num_res_blocks)` loop of
`ensemble_resnet_v1`, threading the graph and the current tensor id. -/
def blocksLoop (num_res_blocks filters num_models : ℕ)
    (random_sign_init dropout_rate l2 : ℚ) (stack : ℕ) (gx : Graph × ℕ) :
    Graph × ℕ :=
  (List.range num_res_blocks).foldl
    (fun gx res_block =>
      resBlockBody gx.1 gx.2 filters num_models random_sign_init dropout_rate l2
        stack res_block)
    gx

/-- The outer `for stack in range(3)` loop of `ensemble_resnet_v1`, threading
the graph, the current tensor id, and `filters` (doubled after each stack). -/
def stacksLoop (num_res_blocks num_models : ℕ)
    (random_sign_init dropout_rate l2 : ℚ) (gx : Graph × ℕ) (filters : ℕ) :
    (Graph × ℕ) × ℕ :=
  (List.range 3).foldl
    (fun acc stack =>
      (blocksLoop num_res_blocks acc.2 num_models random_sign_init dropout_rate l2
        stack acc.1, acc.2 * 2))
    (gx, filters)

/-- `ensemble_resnet_v1` (batchensemble_model.py, lines 87-180): builds
BatchEnsemble ResNet v1, or fails with the `ValueError` message when
`(depth - 2) % 6 != 0`.  `depth` is an arbitrary integer and `%` is Python's
mod (nonnegative remainder for a positive divisor), i.e. `Int.emod`.
Python's `int((depth - 2) / 6)` truncates toward zero, which under the
divisibility guard is the exact quotient, i.e. `ℤ` division; `range` of a
negative count is empty, hence `Int.toNat`. -/
def ensemble_resnet_v1 (input_shape : List ℕ) (depth : ℤ)
    (num_classes width_multiplier num_models : ℕ)
    (random_sign_init dropout_rate l2 : ℚ) : Except String Model :=
  if (depth - 2).emod 6 ≠ 0 then
    .error "depth should be 6n+2 (e.g., 20, 32, 44)."
  else
    let filters := 16 * width_multiplier
    let num_res_blocks := ((depth - 2) / 6).toNat
    let alpha_initializer : Init :=
      if random_sign_init > 0 then .randomSign random_sign_init
      else .randomNormal 1 (-random_sign_init)
    let gamma_initializer : Init :=
      if random_sign_init > 0 then .randomSign random_sign_init
      else .randomNormal 1 (-random_sign_init)
    let pIn := addNode [] (.input input_shape) []
    -- stem: the call passes no `strides`, `activation`, or `dropout_rate`,
    -- so the Python defaults (1, 'relu', 0.) apply
    let pStem := ensemble_resnet_layer pIn.1 pIn.2 filters 3 1 num_models
      random_sign_init (some "relu") 0 l2
    let pStacks := stacksLoop num_res_blocks num_models random_sign_init dropout_rate l2
      pStem filters
    let pPool := addNode pStacks.1.1 (.averagePooling2D 8) [pStacks.1.2]
    let pFlat := addNode pPool.1 .flatten [pPool.2]
    let pDrop := if dropout_rate > 0 then
        addNode pFlat.1 (.dropout dropout_rate true) [pFlat.2]
      else pFlat
    let pDense := addNode pDrop.1
      (.batchEnsembleDense num_classes alpha_initializer gamma_initializer none
        .heNormal num_models l2) [pDrop.2]
    .ok ⟨pDense.1, pIn.2, pDense.2⟩

/-! ### `baselines/imagenet/deterministic_model.py` -/

/-- `BATCH_NORM_DECAY` (deterministic_model.py, line 35). -/
def BATCH_NORM_DECAY : ℚ := 9/10

/-- `BATCH_NORM_EPSILON` (deterministic_model.py, line 36). -/
def BATCH_NORM_EPSILON : ℚ := 1/100000

/-- `identity_block` (deterministic_model.py, lines 39-99): the residual
block with no conv layer at the shortcut.  `image_data_format` stands for
the ambient `tf.keras.backend.image_data_format()` global, made an explicit
argument.  A Keras tensor is a `(graph so far, node id)` pair, since in
Keras the graph is implicit in the tensor.  The Python `filters` list of
three integers is a triple. -/
def identity_block (image_data_format : String) (input_tensor : Graph × ℕ)
    (kernel_size : ℕ) (filters : ℕ × ℕ × ℕ) (stage : ℕ) (block : String) :
    Graph × ℕ :=
  let filters1 := filters.1
  let filters2 := filters.2.1
  let filters3 := filters.2.2
  let bn_axis := if image_data_format = "channels_last" then 3 else 1
  let conv_name_base := "res" ++ toString stage ++ block ++ "_branch"
  let bn_name_base := "bn" ++ toString stage ++ block ++ "_branch"
  let p1 := addNode input_tensor.1
    (.conv2D filters1 (1, 1) (1, 1) "valid" false .heNormal (conv_name_base ++ "2a"))
    [input_tensor.2]
  let p2 := addNode p1.1
    (.batchNorm (some bn_axis) BATCH_NORM_DECAY BATCH_NORM_EPSILON
      (some (bn_name_base ++ "2a"))) [p1.2]
  let p3 := addNode p2.1 (.activation "relu") [p2.2]
  let p4 := addNode p3.1
    (.conv2D filters2 (kernel_size, kernel_size) (1, 1) "same" false .heNormal
      (conv_name_base ++ "2b")) [p3.2]
  let p5 := addNode p4.1
    (.batchNorm (some bn_axis) BATCH_NORM_DECAY BATCH_NORM_EPSILON
      (some (bn_name_base ++ "2b"))) [p4.2]
  let p6 := addNode p5.1 (.activation "relu") [p5.2]
  let p7 := addNode p6.1
    (.conv2D filters3 (1, 1) (1, 1) "valid" false .heNormal (conv_name_base ++ "2c"))
    [p6.2]
  let p8 := addNode p7.1
    (.batchNorm (some bn_axis) BATCH_NORM_DECAY BATCH_NORM_EPSILON
      (some (bn_name_base ++ "2c"))) [p7.2]
  let p9 := addNode p8.1 .add [p8.2, input_tensor.2]
  addNode p9.1 (.activation "relu") [p9.2]

/-- `conv_block` (deterministic_model.py, lines 102-184): the residual block
with a conv layer at the shortcut.  Strides appear in the second conv (3x3)
rather than the first (1x1) ("ResNet v1.5"), and in the shortcut conv.
The Python default is `strides=(2, 2)`; call sites pass it explicitly. -/
def conv_block (image_data_format : String) (input_tensor : Graph × ℕ)
    (kernel_size : ℕ) (filters : ℕ × ℕ × ℕ) (stage : ℕ) (block : String)
    (strides : ℕ × ℕ) : Graph × ℕ :=
  let filters1 := filters.1
  let filters2 := filters.2.1
  let filters3 := filters.2.2
  let bn_axis := if image_data_format = "channels_last" then 3 else 1
  let conv_name_base := "res" ++ toString stage ++ block ++ "_branch"
  let bn_name_base := "bn" ++ toString stage ++ block ++ "_branch"
  let p1 := addNode input_tensor.1
    (.conv2D filters1 (1, 1) (1, 1) "valid" false .heNormal (conv_name_base ++ "2a"))
    [input_tensor.2]
  let p2 := addNode p1.1
    (.batchNorm (some bn_axis) BATCH_NORM_DECAY BATCH_NORM_EPSILON
      (some (bn_name_base ++ "2a"))) [p1.2]
  let p3 := addNode p2.1 (.activation "relu") [p2.2]
  let p4 := addNode p3.1
    (.conv2D filters2 (kernel_size, kernel_size) strides "same" false .heNormal
      (conv_name_base ++ "2b")) [p3.2]
  let p5 := addNode p4.1
    (.batchNorm (some bn_axis) BATCH_NORM_DECAY BATCH_NORM_EPSILON
      (some (bn_name_base ++ "2b"))) [p4.2]
  let p6 := addNode p5.1 (.activation "relu") [p5.2]
  let p7 := addNode p6.1
    (.conv2D filters3 (1, 1) (1, 1) "valid" false .heNormal (conv_name_base ++ "2c"))
    [p6.2]
  let p8 := addNode p7.1
    (.batchNorm (some bn_axis) BATCH_NORM_DECAY BATCH_NORM_EPSILON
      (some (bn_name_base ++ "2c"))) [p7.2]
  let ps1 := addNode p8.1
    (.conv2D filters3 (1, 1) strides "valid" false .heNormal (conv_name_base ++ "1"))
    [input_tensor.2]
  let ps2 := addNode ps1.1
    (.batchNorm (some bn_axis) BATCH_NORM_DECAY BATCH_NORM_EPSILON
      (some (bn_name_base ++ "1"))) [ps1.2]
  let pa := addNode ps2.1 .add [p8.2, ps2.2]
  addNode pa.1 (.activation "relu") [pa.2]

/-- `resnet50` (deterministic_model.py, lines 187-246): builds ResNet50.
`image_data_format` again stands for the ambient Keras global. -/
def resnet50 (image_data_format : String) (num_classes : ℕ) : Model :=
  let input_shape := if image_data_format = "channels_first" then [3, 224, 224]
    else [224, 224, 3]
  let bn_axis := if image_data_format = "channels_first" then 1 else 3
  let pIn := addNode [] (.input input_shape) []
  let p1 := addNode pIn.1 (.zeroPadding2D (3, 3) "conv1_pad") [pIn.2]
  let p2 := addNode p1.1
    (.conv2D 64 (7, 7) (2, 2) "valid" false .heNormal "conv1") [p1.2]
  let p3 := addNode p2.1
    (.batchNorm (some bn_axis) BATCH_NORM_DECAY BATCH_NORM_EPSILON
      (some "bn_conv1")) [p2.2]
  let p4 := addNode p3.1 (.activation "relu") [p3.2]
  let p5 := addNode p4.1 (.maxPooling2D (3, 3) (2, 2) "same") [p4.2]
  let b1 := conv_block image_data_format p5 3 (64, 64, 256) 2 "a" (1, 1)
  let b2 := identity_block image_data_format b1 3 (64, 64, 256) 2 "b"
  let b3 := identity_block image_data_format b2 3 (64, 64, 256) 2 "c"
  let b4 := conv_block image_data_format b3 3 (128, 128, 512) 3 "a" (2, 2)
  let b5 := identity_block image_data_format b4 3 (128, 128, 512) 3 "b"
  let b6 := identity_block image_data_format b5 3 (128, 128, 512) 3 "c"
  let b7 := identity_block image_data_format b6 3 (128, 128, 512) 3 "d"
  let b8 := conv_block image_data_format b7 3 (256, 256, 1024) 4 "a" (2, 2)
  let b9 := identity_block image_data_format b8 3 (256, 256, 1024) 4 "b"
  let b10 := identity_block image_data_format b9 3 (256, 256, 1024) 4 "c"
  let b11 := identity_block image_data_format b10 3 (256, 256, 1024) 4 "d"
  let b12 := identity_block image_data_format b11 3 (256, 256, 1024) 4 "e"
  let b13 := identity_block image_data_format b12 3 (256, 256, 1024) 4 "f"
  let b14 := conv_block image_data_format b13 3 (512, 512, 2048) 5 "a" (2, 2)
  let b15 := identity_block image_data_format b14 3 (512, 512, 2048) 5 "b"
  let b16 := identity_block image_data_format b15 3 (512, 512, 2048) 5 "c"
  let pAvg := addNode b16.1 (.globalAveragePooling2D "avg_pool") [b16.2]
  let pFc := addNode pAvg.1
    (.dense num_classes (some "softmax") (.randomNormal 0 (1/100)) "fc1000") [pAvg.2]
  ⟨pFc.1, pIn.2, pFc.2⟩

/-! ### Observers over graphs and build results -/

/-- The operation sequence of a graph, forgetting the wiring. -/
def opsOf (g : Graph) : List NodeOp := g.map Node.op

/-- Whether an operation is the residual `add`. -/
def isAddOp : NodeOp → Bool
  | .add => true
  | _ => false

/-- Number of residual `add` nodes in a graph. -/
def addCount (g : Graph) : ℕ := (opsOf g).countP isAddOp

/-- The `filters` argument of each `BatchEnsembleConv2D` node, in creation
order. -/
def convFilterList (g : Graph) : List ℕ :=
  (opsOf g).filterMap fun op =>
    match op with
    | .batchEnsembleConv2D f _ _ _ _ _ _ _ _ _ => some f
    | _ => none

/-- The `(alpha, gamma)` initializer pair of each `BatchEnsembleConv2D`
node, in creation order. -/
def convInitList (g : Graph) : List (Init × Init) :=
  (opsOf g).filterMap fun op =>
    match op with
    | .batchEnsembleConv2D _ _ _ a c _ _ _ _ _ => some (a, c)
    | _ => none

/-- Operation sequence of a build result (`[]` for a build error). -/
def modelOps (r : Except String Model) : List NodeOp :=
  match r with
  | .ok m => opsOf m.graph
  | .error _ => []

/-- Residual-add count of a build result (`0` for a build error). -/
def modelAddCount (r : Except String Model) : ℕ :=
  match r with
  | .ok m => addCount m.graph
  | .error _ => 0

/-- `BatchEnsembleConv2D` filter sequence of a build result. -/
def modelConvFilters (r : Except String Model) : List ℕ :=
  match r with
  | .ok m => convFilterList m.graph
  | .error _ => []

/-- The operation of the last created node of a build result. -/
def modelLastOp (r : Except String Model) : Option NodeOp :=
  match r with
  | .ok m => (opsOf m.graph).getLast?
  | .error _ => none

/-- The stem of `resnet50`: input, zero padding, 7x7 stride-2 convolution,
batch normalization, relu, 3x3 stride-2 max pool, at node ids 0-5. -/
def resnet50StemNodes (image_data_format : String) : List Node :=
  [⟨.input (if image_data_format = "channels_first" then [3, 224, 224]
      else [224, 224, 3]), []⟩,
   ⟨.zeroPadding2D (3, 3) "conv1_pad", [0]⟩,
   ⟨.conv2D 64 (7, 7) (2, 2) "valid" false .heNormal "conv1", [1]⟩,
   ⟨.batchNorm (some (if image_data_format = "channels_first" then 1 else 3))
      BATCH_NORM_DECAY BATCH_NORM_EPSILON (some "bn_conv1"), [2]⟩,
   ⟨.activation "relu", [3]⟩,
   ⟨.maxPooling2D (3, 3) (2, 2) "same", [4]⟩]

/-- The twelve nodes one `conv_block` call appends, starting at node id
`base`, reading its input from node id `input_tensor`. -/
def convBlockNodes (image_data_format : String) (base input_tensor : ℕ)
    (kernel_size : ℕ) (filters : ℕ × ℕ × ℕ) (stage : ℕ) (block : String)
    (strides : ℕ × ℕ) : List Node :=
  let bn_axis := if image_data_format = "channels_last" then 3 else 1
  let conv_name_base := "res" ++ toString stage ++ block ++ "_branch"
  let bn_name_base := "bn" ++ toString stage ++ block ++ "_branch"
  [⟨.conv2D filters.1 (1, 1) (1, 1) "valid" false .heNormal (conv_name_base ++ "2a"),
     [input_tensor]⟩,
   ⟨.batchNorm (some bn_axis) BATCH_NORM_DECAY BATCH_NORM_EPSILON
      (some (bn_name_base ++ "2a")), [base]⟩,
   ⟨.activation "relu", [base + 1]⟩,
   ⟨.conv2D filters.2.1 (kernel_size, kernel_size) strides "same" false .heNormal
      (conv_name_base ++ "2b"), [base + 2]⟩,
   ⟨.batchNorm (some bn_axis) BATCH_NORM_DECAY BATCH_NORM_EPSILON
      (some (bn_name_base ++ "2b")), [base + 3]⟩,
   ⟨.activation "relu", [base + 4]⟩,
   ⟨.conv2D filters.2.2 (1, 1) (1, 1) "valid" false .heNormal (conv_name_base ++ "2c"),
     [base + 5]⟩,
   ⟨.batchNorm (some bn_axis) BATCH_NORM_DECAY BATCH_NORM_EPSILON
      (some (bn_name_base ++ "2c")), [base + 6]⟩,
   ⟨.conv2D filters.2.2 (1, 1) strides "valid" false .heNormal (conv_name_base ++ "1"),
     [input_tensor]⟩,
   ⟨.batchNorm (some bn_axis) BATCH_NORM_DECAY BATCH_NORM_EPSILON
      (some (bn_name_base ++ "1")), [base + 8]⟩,
   ⟨.add, [base + 7, base + 9]⟩,
   ⟨.activation "relu", [base + 10]⟩]

/-- The ten nodes one `identity_block` call appends, starting at node id
`base`, reading its input from node id `input_tensor`. -/
def identityBlockNodes (image_data_format : String) (base input_tensor : ℕ)
    (kernel_size : ℕ) (filters : ℕ × ℕ × ℕ) (stage : ℕ) (block : String) :
    List Node :=
  let bn_axis := if image_data_format = "channels_last" then 3 else 1
  let conv_name_base := "res" ++ toString stage ++ block ++ "_branch"
  let bn_name_base := "bn" ++ toString stage ++ block ++ "_branch"
  [⟨.conv2D filters.1 (1, 1) (1, 1) "valid" false .heNormal (conv_name_base ++ "2a"),
     [input_tensor]⟩,
   ⟨.batchNorm (some bn_axis) BATCH_NORM_DECAY BATCH_NORM_EPSILON
      (some (bn_name_base ++ "2a")), [base]⟩,
   ⟨.activation "relu", [base + 1]⟩,
   ⟨.conv2D filters.2.1 (kernel_size, kernel_size) (1, 1) "same" false .heNormal
      (conv_name_base ++ "2b"), [base + 2]⟩,
   ⟨.batchNorm (some bn_axis) BATCH_NORM_DECAY BATCH_NORM_EPSILON
      (some (bn_name_base ++ "2b")), [base + 3]⟩,
   ⟨.activation "relu", [base + 4]⟩,
   ⟨.conv2D filters.2.2 (1, 1) (1, 1) "valid" false .heNormal (conv_name_base ++ "2c"),
     [base + 5]⟩,
   ⟨.batchNorm (some bn_axis) BATCH_NORM_DECAY BATCH_NORM_EPSILON
      (some (bn_name_base ++ "2c")), [base + 6]⟩,
   ⟨.add, [base + 7, input_tensor]⟩,
   ⟨.activation "relu", [base + 8]⟩]

/-! ### Helper lemmas -/

theorem convFilterList_append (g h : Graph) :
    convFilterList (g ++ h) = convFilterList g ++ convFilterList h := by
  simp [convFilterList, opsOf]

theorem addCount_append (g h : Graph) :
    addCount (g ++ h) = addCount g + addCount h := by
  simp [addCount, opsOf]

/-- `ensemble_resnet_layer` contributes exactly one ensemble convolution,
carrying its `filters` argument. -/
theorem layer_convFilters (g : Graph) (x f k s nm : ℕ) (rsi : ℚ)
    (act : Option String) (dr l2 : ℚ) :
    convFilterList (ensemble_resnet_layer g x f k s nm rsi act dr l2).1 =
    convFilterList g ++ [f] := by
  cases act <;> by_cases hd : dr > 0 <;>
    simp [ensemble_resnet_layer, addNode, hd, convFilterList_append, convFilterList, opsOf]

/-- `ensemble_resnet_layer` creates no residual `add` node. -/
theorem layer_addCount (g : Graph) (x f k s nm : ℕ) (rsi : ℚ)
    (act : Option String) (dr l2 : ℚ) :
    addCount (ensemble_resnet_layer g x f k s nm rsi act dr l2).1 = addCount g := by
  cases act <;> by_cases hd : dr > 0 <;>
    simp [ensemble_resnet_layer, addNode, hd, addCount_append, addCount, opsOf, isAddOp]

/-- `ensemble_resnet_layer` only appends nodes to the graph. -/
theorem layer_graph_append (g : Graph) (x f k s nm : ℕ) (rsi : ℚ)
    (act : Option String) (dr l2 : ℚ) :
    ∃ t, (ensemble_resnet_layer g x f k s nm rsi act dr l2).1 = g ++ t := by
  cases act <;> by_cases hd : dr > 0 <;>
    simp [ensemble_resnet_layer, addNode, hd, List.append_assoc]

theorem convFilterList_addNode_add (g : Graph) (ins : List ℕ) :
    convFilterList (addNode g .add ins).1 = convFilterList g := by
  simp [addNode, convFilterList, opsOf]

theorem convFilterList_addNode_act (g : Graph) (a : String) (ins : List ℕ) :
    convFilterList (addNode g (.activation a) ins).1 = convFilterList g := by
  simp [addNode, convFilterList, opsOf]

theorem addCount_addNode_add (g : Graph) (ins : List ℕ) :
    addCount (addNode g .add ins).1 = addCount g + 1 := by
  simp [addNode, addCount, opsOf, isAddOp]

theorem addCount_addNode_act (g : Graph) (a : String) (ins : List ℕ) :
    addCount (addNode g (.activation a) ins).1 = addCount g := by
  simp [addNode, addCount, opsOf, isAddOp]

/-- One residual-block loop body contributes three ensemble convolutions
(two main path, one projection) in the first block of stacks 1 and 2, and
two otherwise. -/
theorem resBlockBody_convFilters (g : Graph) (x f nm : ℕ) (rsi dr l2 : ℚ)
    (st rb : ℕ) :
    convFilterList (resBlockBody g x f nm rsi dr l2 st rb).1 =
    convFilterList g ++ (if st > 0 ∧ rb = 0 then [f, f, f] else [f, f]) := by
  by_cases h : st > 0 ∧ rb = 0 <;>
    simp only [resBlockBody, h, if_true, if_false, and_self, ite_true, ite_false,
      if_pos, eq_self_iff_true, convFilterList_addNode_act, convFilterList_addNode_add,
      layer_convFilters] <;>
    simp [h, List.append_assoc]

/-- One residual-block loop body contributes exactly one `add` node. -/
theorem resBlockBody_addCount (g : Graph) (x f nm : ℕ) (rsi dr l2 : ℚ)
    (st rb : ℕ) :
    addCount (resBlockBody g x f nm rsi dr l2 st rb).1 = addCount g + 1 := by
  by_cases h : st > 0 ∧ rb = 0 <;>
    simp [resBlockBody, h, addCount_addNode_act, addCount_addNode_add, layer_addCount]

theorem blocksLoop_zero (f nm : ℕ) (rsi dr l2 : ℚ) (st : ℕ) (gx : Graph × ℕ) :
    blocksLoop 0 f nm rsi dr l2 st gx = gx := rfl

theorem blocksLoop_succ (n f nm : ℕ) (rsi dr l2 : ℚ) (st : ℕ) (gx : Graph × ℕ) :
    blocksLoop (n + 1) f nm rsi dr l2 st gx =
    resBlockBody (blocksLoop n f nm rsi dr l2 st gx).1
      (blocksLoop n f nm rsi dr l2 st gx).2 f nm rsi dr l2 st n := by
  simp [blocksLoop, List.range_succ, List.foldl_append]

/-- Stack 0 of `ensemble_resnet_v1` contributes `2 * n` ensemble
convolutions at the current filter count (no projection shortcut). -/
theorem blocksLoop_convFilters_zero (f nm : ℕ) (rsi dr l2 : ℚ) :
    ∀ (n : ℕ) (gx : Graph × ℕ),
    convFilterList (blocksLoop n f nm rsi dr l2 0 gx).1 =
    convFilterList gx.1 ++ List.replicate (2 * n) f := by
  intro n
  induction n with
  | zero => intro gx; simp [blocksLoop_zero]
  | succ m ih =>
    intro gx
    rw [blocksLoop_succ, resBlockBody_convFilters, ih]
    have h2 : 2 * (m + 1) = 2 * m + 2 := by ring
    simp [h2, List.replicate_add, List.append_assoc]

/-- A nonzero stack of `ensemble_resnet_v1` running `m + 1` residual blocks
contributes `2 * (m + 1) + 1` ensemble convolutions at the current filter
count: three in the first (projection) block, two in each later block. -/
theorem blocksLoop_convFilters_pos (f nm : ℕ) (rsi dr l2 : ℚ) (st : ℕ)
    (hst : st ≠ 0) :
    ∀ (m : ℕ) (gx : Graph × ℕ),
    convFilterList (blocksLoop (m + 1) f nm rsi dr l2 st gx).1 =
    convFilterList gx.1 ++ (f :: f :: f :: List.replicate (2 * m) f) := by
  intro m
  induction m with
  | zero =>
    intro gx
    rw [blocksLoop_succ, resBlockBody_convFilters]
    simp [blocksLoop_zero, Nat.pos_of_ne_zero hst]
  | succ k ih =>
    intro gx
    rw [blocksLoop_succ, resBlockBody_convFilters, ih]
    have h2 : 2 * (k + 1) = 2 * k + 2 := by ring
    simp [h2, List.replicate_add, List.append_assoc]

/-- Each stack contributes one `add` node per residual block. -/
theorem blocksLoop_addCount (f nm : ℕ) (rsi dr l2 : ℚ) (st : ℕ) :
    ∀ (n : ℕ) (gx : Graph × ℕ),
    addCount (blocksLoop n f nm rsi dr l2 st gx).1 = addCount gx.1 + n := by
  intro n
  induction n with
  | zero => intro gx; simp [blocksLoop_zero]
  | succ m ih =>
    intro gx
    rw [blocksLoop_succ, resBlockBody_addCount, ih]
    omega

/-- The outer stack loop unrolled: three stacks with doubling filters. -/
theorem stacksLoop_eq (n nm : ℕ) (rsi dr l2 : ℚ) (gx : Graph × ℕ) (f : ℕ) :
    stacksLoop n nm rsi dr l2 gx f =
    (blocksLoop n (f * 2 * 2) nm rsi dr l2 2
        (blocksLoop n (f * 2) nm rsi dr l2 1
          (blocksLoop n f nm rsi dr l2 0 gx)), f * 2 * 2 * 2) := rfl

theorem graph_extends_trans {g1 g2 g3 : Graph} (h1 : ∃ t, g2 = g1 ++ t)
    (h2 : ∃ t, g3 = g2 ++ t) : ∃ t, g3 = g1 ++ t := by
  obtain ⟨t1, rfl⟩ := h1
  obtain ⟨t2, rfl⟩ := h2
  exact ⟨t1 ++ t2, List.append_assoc g1 t1 t2⟩

/-- Explicit node list produced by one call to `ensemble_resnet_layer`:
an optional always-training dropout node, the ensemble convolution, batch
normalization, and an optional activation, in that order. -/
theorem ensemble_resnet_layer_eq (g : Graph) (x f k s nm : ℕ) (rsi : ℚ)
    (act : Option String) (dr l2 : ℚ) :
    ensemble_resnet_layer g x f k s nm rsi act dr l2 =
    (g ++ (if dr > 0 then
        [⟨.dropout dr true, [x]⟩,
         ⟨.batchEnsembleConv2D f k s
            (if rsi > 0 then .randomSign rsi else .randomNormal 1 (-rsi))
            (if rsi > 0 then .randomSign rsi else .randomNormal 1 (-rsi))
            "same" false .heNormal nm l2, [g.length]⟩,
         ⟨.batchNorm none (9/10) (1/100000) none, [g.length + 1]⟩] ++
        (match act with
         | some a => [⟨.activation a, [g.length + 2]⟩]
         | none => [])
      else
        [⟨.batchEnsembleConv2D f k s
            (if rsi > 0 then .randomSign rsi else .randomNormal 1 (-rsi))
            (if rsi > 0 then .randomSign rsi else .randomNormal 1 (-rsi))
            "same" false .heNormal nm l2, [x]⟩,
         ⟨.batchNorm none (9/10) (1/100000) none, [g.length]⟩] ++
        (match act with
         | some a => [⟨.activation a, [g.length + 1]⟩]
         | none => [])),
     if dr > 0 then
       (match act with
        | some _ => g.length + 3
        | none => g.length + 2)
     else
       (match act with
        | some _ => g.length + 2
        | none => g.length + 1)) := by
  cases act <;> by_cases hd : dr > 0 <;>
    simp [ensemble_resnet_layer, addNode, hd, List.append_assoc, Nat.add_assoc]

/-- Explicit node list produced by one residual-block loop body, in each of
the four cases (projection block or not, dropout enabled or not). -/
theorem resBlockBody_eq (g : Graph) (x f nm : ℕ) (rsi dr l2 : ℚ)
    (st rb : ℕ) :
    resBlockBody g x f nm rsi dr l2 st rb =
    (g ++ (if st > 0 ∧ rb = 0 then
        (if dr > 0 then
          [⟨.dropout dr true, [x]⟩,
           ⟨.batchEnsembleConv2D f 3 2
              (if rsi > 0 then .randomSign rsi else .randomNormal 1 (-rsi))
              (if rsi > 0 then .randomSign rsi else .randomNormal 1 (-rsi))
              "same" false .heNormal nm l2, [g.length]⟩,
           ⟨.batchNorm none (9/10) (1/100000) none, [g.length + 1]⟩,
           ⟨.activation "relu", [g.length + 2]⟩,
           ⟨.dropout dr true, [g.length + 3]⟩,
           ⟨.batchEnsembleConv2D f 3 1
              (if rsi > 0 then .randomSign rsi else .randomNormal 1 (-rsi))
              (if rsi > 0 then .randomSign rsi else .randomNormal 1 (-rsi))
              "same" false .heNormal nm l2, [g.length + 4]⟩,
           ⟨.batchNorm none (9/10) (1/100000) none, [g.length + 5]⟩,
           ⟨.dropout dr true, [x]⟩,
           ⟨.batchEnsembleConv2D f 1 2
              (if rsi > 0 then .randomSign rsi else .randomNormal 1 (-rsi))
              (if rsi > 0 then .randomSign rsi else .randomNormal 1 (-rsi))
              "same" false .heNormal nm l2, [g.length + 7]⟩,
           ⟨.batchNorm none (9/10) (1/100000) none, [g.length + 8]⟩,
           ⟨.add, [g.length + 9, g.length + 6]⟩,
           ⟨.activation "relu", [g.length + 10]⟩]
        else
          [⟨.batchEnsembleConv2D f 3 2
              (if rsi > 0 then .randomSign rsi else .randomNormal 1 (-rsi))
              (if rsi > 0 then .randomSign rsi else .randomNormal 1 (-rsi))
              "same" false .heNormal nm l2, [x]⟩,
           ⟨.batchNorm none (9/10) (1/100000) none, [g.length]⟩,
           ⟨.activation "relu", [g.length + 1]⟩,
           ⟨.batchEnsembleConv2D f 3 1
              (if rsi > 0 then .randomSign rsi else .randomNormal 1 (-rsi))
              (if rsi > 0 then .randomSign rsi else .randomNormal 1 (-rsi))
              "same" false .heNormal nm l2, [g.length + 2]⟩,
           ⟨.batchNorm none (9/10) (1/100000) none, [g.length + 3]⟩,
           ⟨.batchEnsembleConv2D f 1 2
              (if rsi > 0 then .randomSign rsi else .randomNormal 1 (-rsi))
              (if rsi > 0 then .randomSign rsi else .randomNormal 1 (-rsi))
              "same" false .heNormal nm l2, [x]⟩,
           ⟨.batchNorm none (9/10) (1/100000) none, [g.length + 5]⟩,
           ⟨.add, [g.length + 6, g.length + 4]⟩,
           ⟨.activation "relu", [g.length + 7]⟩])
      else
        (if dr > 0 then
          [⟨.dropout dr true, [x]⟩,
           ⟨.batchEnsembleConv2D f 3 1
              (if rsi > 0 then .randomSign rsi else .randomNormal 1 (-rsi))
              (if rsi > 0 then .randomSign rsi else .randomNormal 1 (-rsi))
              "same" false .heNormal nm l2, [g.length]⟩,
           ⟨.batchNorm none (9/10) (1/100000) none, [g.length + 1]⟩,
           ⟨.activation "relu", [g.length + 2]⟩,
           ⟨.dropout dr true, [g.length + 3]⟩,
           ⟨.batchEnsembleConv2D f 3 1
              (if rsi > 0 then .randomSign rsi else .randomNormal 1 (-rsi))
              (if rsi > 0 then .randomSign rsi else .randomNormal 1 (-rsi))
              "same" false .heNormal nm l2, [g.length + 4]⟩,
           ⟨.batchNorm none (9/10) (1/100000) none, [g.length + 5]⟩,
           ⟨.add, [x, g.length + 6]⟩,
           ⟨.activation "relu", [g.length + 7]⟩]
        else
          [⟨.batchEnsembleConv2D f 3 1
              (if rsi > 0 then .randomSign rsi else .randomNormal 1 (-rsi))
              (if rsi > 0 then .randomSign rsi else .randomNormal 1 (-rsi))
              "same" false .heNormal nm l2, [x]⟩,
           ⟨.batchNorm none (9/10) (1/100000) none, [g.length]⟩,
           ⟨.activation "relu", [g.length + 1]⟩,
           ⟨.batchEnsembleConv2D f 3 1
              (if rsi > 0 then .randomSign rsi else .randomNormal 1 (-rsi))
              (if rsi > 0 then .randomSign rsi else .randomNormal 1 (-rsi))
              "same" false .heNormal nm l2, [g.length + 2]⟩,
           ⟨.batchNorm none (9/10) (1/100000) none, [g.length + 3]⟩,
           ⟨.add, [x, g.length + 4]⟩,
           ⟨.activation "relu", [g.length + 5]⟩])),
     g.length + (if st > 0 ∧ rb = 0 then
        (if dr > 0 then 11 else 8)
      else
        (if dr > 0 then 8 else 6))) := by
  by_cases h : st > 0 ∧ rb = 0 <;> by_cases hd : dr > 0 <;>
    simp [resBlockBody, ensemble_resnet_layer, addNode, h, hd,
      List.append_assoc, Nat.add_assoc]

/-- A residual-block loop body only appends nodes to the graph. -/
theorem resBlockBody_graph_append (g : Graph) (x f nm : ℕ) (rsi dr l2 : ℚ)
    (st rb : ℕ) :
    ∃ t, (resBlockBody g x f nm rsi dr l2 st rb).1 = g ++ t := by
  rw [resBlockBody_eq]
  exact ⟨_, rfl⟩

/-- The inner residual-block loop only appends nodes to the graph. -/
theorem blocksLoop_graph_append (f nm : ℕ) (rsi dr l2 : ℚ) (st : ℕ) :
    ∀ (n : ℕ) (gx : Graph × ℕ),
    ∃ t, (blocksLoop n f nm rsi dr l2 st gx).1 = gx.1 ++ t := by
  intro n
  induction n with
  | zero => intro gx; exact ⟨[], by simp [blocksLoop_zero]⟩
  | succ m ih =>
    intro gx
    rw [blocksLoop_succ]
    exact graph_extends_trans (ih gx) (resBlockBody_graph_append _ _ f nm rsi dr l2 st m)

/-- The outer stack loop only appends nodes to the graph. -/
theorem stacksLoop_graph_append (n nm : ℕ) (rsi dr l2 : ℚ) (gx : Graph × ℕ)
    (f : ℕ) : ∃ t, (stacksLoop n nm rsi dr l2 gx f).1.1 = gx.1 ++ t := by
  rw [stacksLoop_eq]
  exact graph_extends_trans (graph_extends_trans (blocksLoop_graph_append ..)
    (blocksLoop_graph_append ..)) (blocksLoop_graph_append ..)

theorem length_resnet50StemNodes (df : String) :
    (resnet50StemNodes df).length = 6 := rfl

theorem length_convBlockNodes (df : String) (base x k : ℕ) (fs : ℕ × ℕ × ℕ)
    (s : ℕ) (bl : String) (st : ℕ × ℕ) :
    (convBlockNodes df base x k fs s bl st).length = 12 := rfl

theorem length_identityBlockNodes (df : String) (base x k : ℕ) (fs : ℕ × ℕ × ℕ)
    (s : ℕ) (bl : String) :
    (identityBlockNodes df base x k fs s bl).length = 10 := rfl

/-- `conv_block` appends exactly its twelve nodes and returns the final
relu node. -/
theorem conv_block_eq (df : String) (x : Graph × ℕ) (k : ℕ) (fs : ℕ × ℕ × ℕ)
    (s : ℕ) (bl : String) (st : ℕ × ℕ) :
    conv_block df x k fs s bl st =
    (x.1 ++ convBlockNodes df x.1.length x.2 k fs s bl st, x.1.length + 11) := by
  simp [conv_block, convBlockNodes, addNode, List.append_assoc, Nat.add_assoc]

/-- `identity_block` appends exactly its ten nodes and returns the final
relu node. -/
theorem identity_block_eq (df : String) (x : Graph × ℕ) (k : ℕ)
    (fs : ℕ × ℕ × ℕ) (s : ℕ) (bl : String) :
    identity_block df x k fs s bl =
    (x.1 ++ identityBlockNodes df x.1.length x.2 k fs s bl, x.1.length + 9) := by
  simp [identity_block, identityBlockNodes, addNode, List.append_assoc, Nat.add_assoc]

/-! ### Claims -/

/-- C1: for every `depth` with `(depth - 2) mod 6 ≠ 0`, `ensemble_resnet_v1`
fails with the `ValueError` message — returning just the error, so no graph
node (input node, layer, or model object) is constructed — and for every
`depth` with `(depth - 2) mod 6 = 0` the check passes, no error is raised,
and a model is produced. -/
theorem claim_C1 (input_shape : List ℕ) (depth : ℤ)
    (num_classes width_multiplier num_models : ℕ) (rsi dr l2 : ℚ) :
    (ensemble_resnet_v1 input_shape depth num_classes width_multiplier num_models
        rsi dr l2 =
      Except.error "depth should be 6n+2 (e.g., 20, 32, 44)." ↔
      (depth - 2).emod 6 ≠ 0) ∧
    ((depth - 2).emod 6 = 0 →
      (ensemble_resnet_v1 input_shape depth num_classes width_multiplier num_models
        rsi dr l2).isOk = true) := by
  unfold ensemble_resnet_v1
  split
  · next h => simp [h]
  · next h =>
    simp only [ne_eq, not_not] at h
    simp [h, Except.isOk, Except.toBool]

/-- Witness for C1 at the invalid depth 21 and the valid depth 20. -/
theorem claim_C1_wit :
    ensemble_resnet_v1 [32, 32, 3] 21 10 1 4 1 0 0 =
      Except.error "depth should be 6n+2 (e.g., 20, 32, 44)." ∧
    (ensemble_resnet_v1 [32, 32, 3] 20 10 1 4 1 0 0).isOk = true :=
  ⟨(claim_C1 [32, 32, 3] 21 10 1 4 1 0 0).1.mpr (by decide),
   (claim_C1 [32, 32, 3] 20 10 1 4 1 0 0).2 (by decide)⟩

/-- C2: for every valid depth (at least 8, so at least one block per stage),
`ensemble_resnet_v1` builds exactly `3 * num_res_blocks` residual blocks
(`num_res_blocks = (depth-2)/6`, one `add` node per block), and its ensemble
convolutions, in creation order, are: the stem at `16 * width_multiplier`
filters, then `2n` main-path convolutions at `16 * w` (stage 1), then
`2n + 1` convolutions at `32 * w` (stage 2: `2n` main-path plus one
projection), then `2n + 1` at `64 * w` (stage 3): three stages of `n` blocks
each, with the filter count starting at `16 * w` and doubling at each stage
boundary. -/
theorem claim_C2 (input_shape : List ℕ) (depth : ℤ) (num_classes w nm : ℕ)
    (rsi dr l2 : ℚ) (hdep : (depth - 2).emod 6 = 0) (hge : 8 ≤ depth) :
    (ensemble_resnet_v1 input_shape depth num_classes w nm rsi dr l2).isOk = true ∧
    modelAddCount (ensemble_resnet_v1 input_shape depth num_classes w nm rsi dr l2) =
      3 * ((depth - 2) / 6).toNat ∧
    modelConvFilters (ensemble_resnet_v1 input_shape depth num_classes w nm rsi dr l2) =
      16 * w :: (List.replicate (2 * ((depth - 2) / 6).toNat) (16 * w) ++
        List.replicate (2 * ((depth - 2) / 6).toNat + 1) (32 * w) ++
        List.replicate (2 * ((depth - 2) / 6).toNat + 1) (64 * w)) := by
  obtain ⟨m, hm⟩ : ∃ m, ((depth - 2) / 6).toNat = m + 1 :=
    ⟨((depth - 2) / 6).toNat - 1, by omega⟩
  have hcond : ¬((depth - 2).emod 6 ≠ 0) := by simp [hdep]
  unfold ensemble_resnet_v1
  rw [if_neg hcond, hm]
  refine ⟨rfl, ?_, ?_⟩
  · by_cases hd : dr > 0 <;>
      simp only [modelAddCount, hd, stacksLoop_eq, addNode, addCount_append,
        blocksLoop_addCount, layer_addCount, if_true, if_false, ite_true,
        ite_false] <;>
      simp [addCount, opsOf, isAddOp] <;> omega
  · have hrep32 : List.replicate (2 * (m + 1) + 1) (32 * w) =
        32 * w :: 32 * w :: 32 * w :: List.replicate (2 * m) (32 * w) := by
      have h3 : 2 * (m + 1) + 1 = 3 + 2 * m := by ring
      rw [h3, List.replicate_add]
      rfl
    have hrep64 : List.replicate (2 * (m + 1) + 1) (64 * w) =
        64 * w :: 64 * w :: 64 * w :: List.replicate (2 * m) (64 * w) := by
      have h3 : 2 * (m + 1) + 1 = 3 + 2 * m := by ring
      rw [h3, List.replicate_add]
      rfl
    have h64 : 16 * w * 2 * 2 = 64 * w := by ring
    have h64x : 32 * w * 2 = 64 * w := by ring
    have h32 : 16 * w * 2 = 32 * w := by ring
    by_cases hd : dr > 0 <;>
      simp only [modelConvFilters, hd, stacksLoop_eq, addNode, convFilterList_append,
        blocksLoop_convFilters_zero, layer_convFilters, if_true, if_false,
        ite_true, ite_false,
        blocksLoop_convFilters_pos _ _ rsi dr l2 1 (by omega),
        blocksLoop_convFilters_pos _ _ rsi dr l2 2 (by omega),
        h64, h32, h64x, hrep32, hrep64] <;>
      simp [convFilterList, opsOf, List.append_assoc]

/-- Witness for C2 at depth 20, width multiplier 1: 9 residual blocks, with
stem filters 16 and per-stage filter counts 16, 32, 64. -/
theorem claim_C2_wit :
    (ensemble_resnet_v1 [32, 32, 3] 20 10 1 4 (1/2) 0 0).isOk = true ∧
    modelAddCount (ensemble_resnet_v1 [32, 32, 3] 20 10 1 4 (1/2) 0 0) = 9 ∧
    modelConvFilters (ensemble_resnet_v1 [32, 32, 3] 20 10 1 4 (1/2) 0 0) =
      16 :: (List.replicate 6 16 ++ List.replicate 7 32 ++ List.replicate 7 64) :=
  claim_C2 [32, 32, 3] 20 10 1 4 (1/2) 0 0 (by decide) (by decide)

/-- C3: in `ensemble_resnet_v1`, whose double loop body is `resBlockBody`,
the first residual block of stacks 1 and 2 (stack index `st > 0`, block
index `rb = 0`) uses stride 2 on its first main-path ensemble convolution
and builds a linear 1x1 stride-2 projection shortcut (a convolution reading
the unmodified stack input `x`, then batch normalization, no activation)
whose output is the first operand of the residual `add`; every other
residual block uses stride 1 throughout, creates no projection (no
kernel-size-1 convolution), and its `add` reads the unmodified stack input
id `x` directly.  Stated as the full node-list equation in each of the four
cases (projection or not, dropout or not). -/
theorem claim_C3 (g : Graph) (x f nm : ℕ) (rsi dr l2 : ℚ) (st rb : ℕ) :
    resBlockBody g x f nm rsi dr l2 st rb =
    (g ++ (if st > 0 ∧ rb = 0 then
        (if dr > 0 then
          [⟨.dropout dr true, [x]⟩,
           ⟨.batchEnsembleConv2D f 3 2
              (if rsi > 0 then .randomSign rsi else .randomNormal 1 (-rsi))
              (if rsi > 0 then .randomSign rsi else .randomNormal 1 (-rsi))
              "same" false .heNormal nm l2, [g.length]⟩,
           ⟨.batchNorm none (9/10) (1/100000) none, [g.length + 1]⟩,
           ⟨.activation "relu", [g.length + 2]⟩,
           ⟨.dropout dr true, [g.length + 3]⟩,
           ⟨.batchEnsembleConv2D f 3 1
              (if rsi > 0 then .randomSign rsi else .randomNormal 1 (-rsi))
              (if rsi > 0 then .randomSign rsi else .randomNormal 1 (-rsi))
              "same" false .heNormal nm l2, [g.length + 4]⟩,
           ⟨.batchNorm none (9/10) (1/100000) none, [g.length + 5]⟩,
           ⟨.dropout dr true, [x]⟩,
           ⟨.batchEnsembleConv2D f 1 2
              (if rsi > 0 then .randomSign rsi else .randomNormal 1 (-rsi))
              (if rsi > 0 then .randomSign rsi else .randomNormal 1 (-rsi))
              "same" false .heNormal nm l2, [g.length + 7]⟩,
           ⟨.batchNorm none (9/10) (1/100000) none, [g.length + 8]⟩,
           ⟨.add, [g.length + 9, g.length + 6]⟩,
           ⟨.activation "relu", [g.length + 10]⟩]
        else
          [⟨.batchEnsembleConv2D f 3 2
              (if rsi > 0 then .randomSign rsi else .randomNormal 1 (-rsi))
              (if rsi > 0 then .randomSign rsi else .randomNormal 1 (-rsi))
              "same" false .heNormal nm l2, [x]⟩,
           ⟨.batchNorm none (9/10) (1/100000) none, [g.length]⟩,
           ⟨.activation "relu", [g.length + 1]⟩,
           ⟨.batchEnsembleConv2D f 3 1
              (if rsi > 0 then .randomSign rsi else .randomNormal 1 (-rsi))
              (if rsi > 0 then .randomSign rsi else .randomNormal 1 (-rsi))
              "same" false .heNormal nm l2, [g.length + 2]⟩,
           ⟨.batchNorm none (9/10) (1/100000) none, [g.length + 3]⟩,
           ⟨.batchEnsembleConv2D f 1 2
              (if rsi > 0 then .randomSign rsi else .randomNormal 1 (-rsi))
              (if rsi > 0 then .randomSign rsi else .randomNormal 1 (-rsi))
              "same" false .heNormal nm l2, [x]⟩,
           ⟨.batchNorm none (9/10) (1/100000) none, [g.length + 5]⟩,
           ⟨.add, [g.length + 6, g.length + 4]⟩,
           ⟨.activation "relu", [g.length + 7]⟩])
      else
        (if dr > 0 then
          [⟨.dropout dr true, [x]⟩,
           ⟨.batchEnsembleConv2D f 3 1
              (if rsi > 0 then .randomSign rsi else .randomNormal 1 (-rsi))
              (if rsi > 0 then .randomSign rsi else .randomNormal 1 (-rsi))
              "same" false .heNormal nm l2, [g.length]⟩,
           ⟨.batchNorm none (9/10) (1/100000) none, [g.length + 1]⟩,
           ⟨.activation "relu", [g.length + 2]⟩,
           ⟨.dropout dr true, [g.length + 3]⟩,
           ⟨.batchEnsembleConv2D f 3 1
              (if rsi > 0 then .randomSign rsi else .randomNormal 1 (-rsi))
              (if rsi > 0 then .randomSign rsi else .randomNormal 1 (-rsi))
              "same" false .heNormal nm l2, [g.length + 4]⟩,
           ⟨.batchNorm none (9/10) (1/100000) none, [g.length + 5]⟩,
           ⟨.add, [x, g.length + 6]⟩,
           ⟨.activation "relu", [g.length + 7]⟩]
        else
          [⟨.batchEnsembleConv2D f 3 1
              (if rsi > 0 then .randomSign rsi else .randomNormal 1 (-rsi))
              (if rsi > 0 then .randomSign rsi else .randomNormal 1 (-rsi))
              "same" false .heNormal nm l2, [x]⟩,
           ⟨.batchNorm none (9/10) (1/100000) none, [g.length]⟩,
           ⟨.activation "relu", [g.length + 1]⟩,
           ⟨.batchEnsembleConv2D f 3 1
              (if rsi > 0 then .randomSign rsi else .randomNormal 1 (-rsi))
              (if rsi > 0 then .randomSign rsi else .randomNormal 1 (-rsi))
              "same" false .heNormal nm l2, [g.length + 2]⟩,
           ⟨.batchNorm none (9/10) (1/100000) none, [g.length + 3]⟩,
           ⟨.add, [x, g.length + 4]⟩,
           ⟨.activation "relu", [g.length + 5]⟩])),
     g.length + (if st > 0 ∧ rb = 0 then
        (if dr > 0 then 11 else 8)
      else
        (if dr > 0 then 8 else 6)))  :=
  resBlockBody_eq g x f nm rsi dr l2 st rb

/-- C4: `ensemble_resnet_layer` and `ensemble_resnet_v1` select the alpha
and gamma initializers by the same rule: `RandomSign random_sign_init` when
`random_sign_init > 0`, else `RandomNormal` with mean 1 and standard
deviation `-random_sign_init`.  The layer applies the selected pair to its
ensemble convolution; the builder applies its own selected pair to the final
ensemble dense layer (its last created node). -/
theorem claim_C4 (g : Graph) (x f k s nm : ℕ) (rsi : ℚ) (act : Option String)
    (dr l2 : ℚ) (input_shape : List ℕ) (depth : ℤ) (nc w : ℕ) :
    convInitList (ensemble_resnet_layer g x f k s nm rsi act dr l2).1 =
      convInitList g ++
        [(if rsi > 0 then Init.randomSign rsi else Init.randomNormal 1 (-rsi),
          if rsi > 0 then Init.randomSign rsi else Init.randomNormal 1 (-rsi))] ∧
    ((depth - 2).emod 6 = 0 →
      modelLastOp (ensemble_resnet_v1 input_shape depth nc w nm rsi dr l2) =
        some (.batchEnsembleDense nc
          (if rsi > 0 then .randomSign rsi else .randomNormal 1 (-rsi))
          (if rsi > 0 then .randomSign rsi else .randomNormal 1 (-rsi))
          none .heNormal nm l2)) := by
  constructor
  · cases act <;> by_cases hd : dr > 0 <;>
      simp [ensemble_resnet_layer, addNode, hd, convInitList, opsOf]
  · intro h
    have hcond : ¬((depth - 2).emod 6 ≠ 0) := by simp [h]
    unfold ensemble_resnet_v1
    rw [if_neg hcond]
    simp only [modelLastOp, opsOf, addNode, List.map_append]
    simp [List.getLast?_concat]

/-- Witness for C4 with negative `random_sign_init = -1/2`: the dense head
of a valid build carries `RandomNormal` initializers with mean 1 and
standard deviation `1/2`. -/
theorem claim_C4_wit :
    modelLastOp (ensemble_resnet_v1 [32, 32, 3] 20 10 1 4 (-(1/2)) 0 0) =
      some (.batchEnsembleDense 10 (.randomNormal 1 (1/2)) (.randomNormal 1 (1/2))
        none .heNormal 4 0) := by
  have h := (claim_C4 [] 0 16 3 1 4 (-(1/2)) none 0 0 [32, 32, 3] 20 10 1).2 (by decide)
  norm_num at h
  exact h

theorem drop_length_sub (L M : List NodeOp) (k : ℕ) (hk : M.length = k) :
    (L ++ M).drop ((L ++ M).length - k) = M := by
  subst hk
  rw [List.length_append, Nat.add_sub_cancel]
  exact List.drop_left L M

/-- C5: in `ensemble_resnet_layer`, a dropout node is created if and only if
`dropout_rate > 0`; when created it sits immediately before the ensemble
convolution and carries `training := true` (active regardless of any
external train/eval context); and in the tail of `ensemble_resnet_v1` the
same always-training dropout appears between flatten and the ensemble dense
layer exactly when `dropout_rate > 0` (the last 4 operations are then
average pool, flatten, dropout, dense; otherwise the last 3 omit the
dropout). -/
theorem claim_C5 (g : Graph) (x f k s nm : ℕ) (rsi : ℚ) (act : Option String)
    (dr l2 : ℚ) (input_shape : List ℕ) (depth : ℤ) (nc w : ℕ) :
    ensemble_resnet_layer g x f k s nm rsi act dr l2 =
    (g ++ (if dr > 0 then
        [⟨.dropout dr true, [x]⟩,
         ⟨.batchEnsembleConv2D f k s
            (if rsi > 0 then .randomSign rsi else .randomNormal 1 (-rsi))
            (if rsi > 0 then .randomSign rsi else .randomNormal 1 (-rsi))
            "same" false .heNormal nm l2, [g.length]⟩,
         ⟨.batchNorm none (9/10) (1/100000) none, [g.length + 1]⟩] ++
        (match act with
         | some a => [⟨.activation a, [g.length + 2]⟩]
         | none => [])
      else
        [⟨.batchEnsembleConv2D f k s
            (if rsi > 0 then .randomSign rsi else .randomNormal 1 (-rsi))
            (if rsi > 0 then .randomSign rsi else .randomNormal 1 (-rsi))
            "same" false .heNormal nm l2, [x]⟩,
         ⟨.batchNorm none (9/10) (1/100000) none, [g.length]⟩] ++
        (match act with
         | some a => [⟨.activation a, [g.length + 1]⟩]
         | none => [])),
     if dr > 0 then
       (match act with
        | some _ => g.length + 3
        | none => g.length + 2)
     else
       (match act with
        | some _ => g.length + 2
        | none => g.length + 1)) ∧
    ((depth - 2).emod 6 = 0 →
      (modelOps (ensemble_resnet_v1 input_shape depth nc w nm rsi dr l2)).drop
          ((modelOps (ensemble_resnet_v1 input_shape depth nc w nm rsi dr l2)).length -
            (if dr > 0 then 4 else 3)) =
        [.averagePooling2D 8, .flatten] ++
          (if dr > 0 then [.dropout dr true] else []) ++
          [.batchEnsembleDense nc
            (if rsi > 0 then .randomSign rsi else .randomNormal 1 (-rsi))
            (if rsi > 0 then .randomSign rsi else .randomNormal 1 (-rsi))
            none .heNormal nm l2]) := by
  refine ⟨ensemble_resnet_layer_eq g x f k s nm rsi act dr l2, ?_⟩
  intro h
  have hcond : ¬((depth - 2).emod 6 ≠ 0) := by simp [h]
  unfold ensemble_resnet_v1
  rw [if_neg hcond]
  simp only [modelOps]
  by_cases hd : dr > 0 <;>
    simp only [hd, ite_true, ite_false, if_true, if_false, addNode, opsOf,
      List.map_append, List.append_assoc, List.map_cons, List.map_nil,
      List.singleton_append, List.cons_append, List.nil_append] <;>
    first
      | exact drop_length_sub _ _ 4 (by simp)
      | exact drop_length_sub _ _ 3 (by simp)

/-- Witness for C5 at depth 20 with `dropout_rate = 1/2`: the tail of the
built graph ends with average pool, flatten, always-training dropout, and
the ensemble dense head. -/
theorem claim_C5_wit :
    (modelOps (ensemble_resnet_v1 [32, 32, 3] 20 10 1 4 1 (1/2) 0)).drop
        ((modelOps (ensemble_resnet_v1 [32, 32, 3] 20 10 1 4 1 (1/2) 0)).length - 4) =
      [.averagePooling2D 8, .flatten, .dropout (1/2) true,
       .batchEnsembleDense 10 (.randomSign 1) (.randomSign 1) none .heNormal 4 0] := by
  have h := (claim_C5 [] 0 16 3 1 4 1 (some "relu") (1/2) 0 [32, 32, 3] 20 10 1).2 (by decide)
  norm_num at h
  exact h

/-- C9: the stem ensemble layer of `ensemble_resnet_v1` is constructed
without the builder's `dropout_rate` (the Python call omits it, so the
layer default `0.` applies): for every `dropout_rate`, including positive
ones, the node right after the input (index 1) is the stem ensemble
convolution itself — no dropout node precedes it.  The residual-block
layers, by contrast, do receive the builder's `dropout_rate`: whenever it is
positive, every loop-body block starts with an always-training dropout node
reading the block input. -/
theorem claim_C9 (input_shape : List ℕ) (depth : ℤ) (nc w nm : ℕ)
    (rsi dr l2 : ℚ) (hdep : (depth - 2).emod 6 = 0) :
    (modelOps (ensemble_resnet_v1 input_shape depth nc w nm rsi dr l2))[1]? =
      some (.batchEnsembleConv2D (16 * w) 3 1
        (if rsi > 0 then .randomSign rsi else .randomNormal 1 (-rsi))
        (if rsi > 0 then .randomSign rsi else .randomNormal 1 (-rsi))
        "same" false .heNormal nm l2) ∧
    (dr > 0 → ∀ (g : Graph) (x f stack res_block : ℕ),
      ((resBlockBody g x f nm rsi dr l2 stack res_block).1.drop g.length).head? =
        some ⟨.dropout dr true, [x]⟩) := by
  constructor
  · have hcond : ¬((depth - 2).emod 6 ≠ 0) := by simp [hdep]
    have hstem : ensemble_resnet_layer (addNode [] (.input input_shape) []).1
        (addNode [] (.input input_shape) []).2 (16 * w) 3 1 nm rsi (some "relu") 0 l2 =
        ([⟨.input input_shape, []⟩,
          ⟨.batchEnsembleConv2D (16 * w) 3 1
            (if rsi > 0 then .randomSign rsi else .randomNormal 1 (-rsi))
            (if rsi > 0 then .randomSign rsi else .randomNormal 1 (-rsi))
            "same" false .heNormal nm l2, [0]⟩,
          ⟨.batchNorm none (9/10) (1/100000) none, [1]⟩,
          ⟨.activation "relu", [2]⟩], 3) := by
      rw [ensemble_resnet_layer_eq]
      simp [addNode]
    unfold ensemble_resnet_v1
    rw [if_neg hcond]
    simp only [modelOps]
    rw [hstem]
    obtain ⟨t, ht⟩ := stacksLoop_graph_append ((depth - 2) / 6).toNat nm rsi dr l2
      ([⟨.input input_shape, []⟩,
        ⟨.batchEnsembleConv2D (16 * w) 3 1
          (if rsi > 0 then .randomSign rsi else .randomNormal 1 (-rsi))
          (if rsi > 0 then .randomSign rsi else .randomNormal 1 (-rsi))
          "same" false .heNormal nm l2, [0]⟩,
        ⟨.batchNorm none (9/10) (1/100000) none, [1]⟩,
        ⟨.activation "relu", [2]⟩], 3) (16 * w)
    rw [ht]
    by_cases hd : dr > 0 <;>
      simp [modelOps, opsOf, addNode, hd, List.append_assoc]
  · intro hdr g x f stack res_block
    rw [resBlockBody_eq]
    by_cases h : stack > 0 ∧ res_block = 0 <;>
      simp [h, hdr, List.drop_left]

/-- Witness for C9 at depth 20, `dropout_rate = 1/2`: node 1 is the stem
convolution (no dropout before it), while a residual-block body starting on
the empty graph begins with a dropout node. -/
theorem claim_C9_wit :
    (modelOps (ensemble_resnet_v1 [32, 32, 3] 20 10 1 4 1 (1/2) 0))[1]? =
      some (.batchEnsembleConv2D 16 3 1 (.randomSign 1) (.randomSign 1)
        "same" false .heNormal 4 0) ∧
    ((resBlockBody [] 0 16 4 1 (1/2) 0 0 0).1.drop 0).head? =
      some ⟨.dropout (1/2) true, [0]⟩ := by
  have h := claim_C9 [32, 32, 3] 20 10 1 4 1 (1/2) 0 (by decide)
  have h1 := h.1
  have h2 := h.2 (by norm_num) [] 0 16 0 0
  norm_num at h1
  exact ⟨h1, h2⟩

/-- C10: the downsampling projection shortcut of the first block of stacks 1
and 2 is built by a full `ensemble_resnet_layer` call that receives the
builder's `dropout_rate`: when `dropout_rate > 0`, the shortcut path applies
an always-training dropout to the unmodified stack input `x`, then the 1x1
stride-2 projection convolution, then batch normalization inside the same
layer call, and the residual `add` consumes the batch-normalization output. -/
theorem claim_C10 (g : Graph) (x f nm : ℕ) (rsi dr l2 : ℚ) (st : ℕ)
    (hst : st > 0) (hdr : dr > 0) :
    resBlockBody g x f nm rsi dr l2 st 0 =
    (g ++
      [⟨.dropout dr true, [x]⟩,
       ⟨.batchEnsembleConv2D f 3 2
          (if rsi > 0 then .randomSign rsi else .randomNormal 1 (-rsi))
          (if rsi > 0 then .randomSign rsi else .randomNormal 1 (-rsi))
          "same" false .heNormal nm l2, [g.length]⟩,
       ⟨.batchNorm none (9/10) (1/100000) none, [g.length + 1]⟩,
       ⟨.activation "relu", [g.length + 2]⟩,
       ⟨.dropout dr true, [g.length + 3]⟩,
       ⟨.batchEnsembleConv2D f 3 1
          (if rsi > 0 then .randomSign rsi else .randomNormal 1 (-rsi))
          (if rsi > 0 then .randomSign rsi else .randomNormal 1 (-rsi))
          "same" false .heNormal nm l2, [g.length + 4]⟩,
       ⟨.batchNorm none (9/10) (1/100000) none, [g.length + 5]⟩,
       ⟨.dropout dr true, [x]⟩,
       ⟨.batchEnsembleConv2D f 1 2
          (if rsi > 0 then .randomSign rsi else .randomNormal 1 (-rsi))
          (if rsi > 0 then .randomSign rsi else .randomNormal 1 (-rsi))
          "same" false .heNormal nm l2, [g.length + 7]⟩,
       ⟨.batchNorm none (9/10) (1/100000) none, [g.length + 8]⟩,
       ⟨.add, [g.length + 9, g.length + 6]⟩,
       ⟨.activation "relu", [g.length + 10]⟩],
     g.length + 11) := by
  rw [resBlockBody_eq]
  simp [hst, hdr]

/-- Witness for C10 on the empty graph with `stack = 1`,
`dropout_rate = 1/2`: the projection path is dropout, 1x1 stride-2 ensemble
convolution, batch normalization, feeding the residual add. -/
theorem claim_C10_wit :
    resBlockBody [] 0 16 4 1 (1/2) 0 1 0 =
    ([⟨.dropout (1/2) true, [0]⟩,
      ⟨.batchEnsembleConv2D 16 3 2 (.randomSign 1) (.randomSign 1)
        "same" false .heNormal 4 0, [0]⟩,
      ⟨.batchNorm none (9/10) (1/100000) none, [1]⟩,
      ⟨.activation "relu", [2]⟩,
      ⟨.dropout (1/2) true, [3]⟩,
      ⟨.batchEnsembleConv2D 16 3 1 (.randomSign 1) (.randomSign 1)
        "same" false .heNormal 4 0, [4]⟩,
      ⟨.batchNorm none (9/10) (1/100000) none, [5]⟩,
      ⟨.dropout (1/2) true, [0]⟩,
      ⟨.batchEnsembleConv2D 16 1 2 (.randomSign 1) (.randomSign 1)
        "same" false .heNormal 4 0, [7]⟩,
      ⟨.batchNorm none (9/10) (1/100000) none, [8]⟩,
      ⟨.add, [9, 6]⟩,
      ⟨.activation "relu", [10]⟩], 11) := by
  have h := claim_C10 [] 0 16 4 1 (1/2) 0 1 (by norm_num) (by norm_num)
  norm_num at h
  exact h

/-- C7: `identity_block` computes three sequential convolution + batch
normalization stages (1x1 with `f1` filters, then `k`x`k` with `f2`, then
1x1 with `f3`), applies relu after the first two stages but not after the
third, and ends with `add` reading the third batch normalization and the
unchanged input id `x` (no projection on the shortcut) followed by the final
relu. -/
theorem claim_C7 (df : String) (g : Graph) (x k f1 f2 f3 stage : ℕ)
    (block : String) :
    identity_block df (g, x) k (f1, f2, f3) stage block =
    (g ++
      [⟨.conv2D f1 (1, 1) (1, 1) "valid" false .heNormal
          ("res" ++ toString stage ++ block ++ "_branch" ++ "2a"), [x]⟩,
       ⟨.batchNorm (some (if df = "channels_last" then 3 else 1))
          BATCH_NORM_DECAY BATCH_NORM_EPSILON
          (some ("bn" ++ toString stage ++ block ++ "_branch" ++ "2a")), [g.length]⟩,
       ⟨.activation "relu", [g.length + 1]⟩,
       ⟨.conv2D f2 (k, k) (1, 1) "same" false .heNormal
          ("res" ++ toString stage ++ block ++ "_branch" ++ "2b"), [g.length + 2]⟩,
       ⟨.batchNorm (some (if df = "channels_last" then 3 else 1))
          BATCH_NORM_DECAY BATCH_NORM_EPSILON
          (some ("bn" ++ toString stage ++ block ++ "_branch" ++ "2b")), [g.length + 3]⟩,
       ⟨.activation "relu", [g.length + 4]⟩,
       ⟨.conv2D f3 (1, 1) (1, 1) "valid" false .heNormal
          ("res" ++ toString stage ++ block ++ "_branch" ++ "2c"), [g.length + 5]⟩,
       ⟨.batchNorm (some (if df = "channels_last" then 3 else 1))
          BATCH_NORM_DECAY BATCH_NORM_EPSILON
          (some ("bn" ++ toString stage ++ block ++ "_branch" ++ "2c")), [g.length + 6]⟩,
       ⟨.add, [g.length + 7, x]⟩,
       ⟨.activation "relu", [g.length + 8]⟩],
     g.length + 9) := by
  simp [identity_block, addNode, List.append_assoc, Nat.add_assoc]

/-- C8: `conv_block` applies its `strides` argument only at the middle
`k`x`k` convolution of the main path (the first 1x1 convolution has strides
(1, 1)), builds a shortcut of a 1x1 convolution with `f3` filters using the
same `strides` on the unchanged input id `x` followed by batch
normalization, and ends with `add` reading the main path and the projected
shortcut, followed by the final relu. -/
theorem claim_C8 (df : String) (g : Graph) (x k f1 f2 f3 stage : ℕ)
    (block : String) (strides : ℕ × ℕ) :
    conv_block df (g, x) k (f1, f2, f3) stage block strides =
    (g ++
      [⟨.conv2D f1 (1, 1) (1, 1) "valid" false .heNormal
          ("res" ++ toString stage ++ block ++ "_branch" ++ "2a"), [x]⟩,
       ⟨.batchNorm (some (if df = "channels_last" then 3 else 1))
          BATCH_NORM_DECAY BATCH_NORM_EPSILON
          (some ("bn" ++ toString stage ++ block ++ "_branch" ++ "2a")), [g.length]⟩,
       ⟨.activation "relu", [g.length + 1]⟩,
       ⟨.conv2D f2 (k, k) strides "same" false .heNormal
          ("res" ++ toString stage ++ block ++ "_branch" ++ "2b"), [g.length + 2]⟩,
       ⟨.batchNorm (some (if df = "channels_last" then 3 else 1))
          BATCH_NORM_DECAY BATCH_NORM_EPSILON
          (some ("bn" ++ toString stage ++ block ++ "_branch" ++ "2b")), [g.length + 3]⟩,
       ⟨.activation "relu", [g.length + 4]⟩,
       ⟨.conv2D f3 (1, 1) (1, 1) "valid" false .heNormal
          ("res" ++ toString stage ++ block ++ "_branch" ++ "2c"), [g.length + 5]⟩,
       ⟨.batchNorm (some (if df = "channels_last" then 3 else 1))
          BATCH_NORM_DECAY BATCH_NORM_EPSILON
          (some ("bn" ++ toString stage ++ block ++ "_branch" ++ "2c")), [g.length + 6]⟩,
       ⟨.conv2D f3 (1, 1) strides "valid" false .heNormal
          ("res" ++ toString stage ++ block ++ "_branch" ++ "1"), [x]⟩,
       ⟨.batchNorm (some (if df = "channels_last" then 3 else 1))
          BATCH_NORM_DECAY BATCH_NORM_EPSILON
          (some ("bn" ++ toString stage ++ block ++ "_branch" ++ "1")), [g.length + 8]⟩,
       ⟨.add, [g.length + 7, g.length + 9]⟩,
       ⟨.activation "relu", [g.length + 10]⟩],
     g.length + 11) := by
  simp [conv_block, addNode, List.append_assoc, Nat.add_assoc]

/-- C6: for every `num_classes` (and either image data format), `resnet50`
assembles the stem, then exactly four residual stages with block counts
[3, 4, 6, 3]: each stage starts with one `conv_block` (stage 2 with strides
(1, 1), stages 3, 4 and 5 with the default (2, 2)) and continues with
`identity_block`s, followed by a global average pool and a dense softmax
head with `num_classes` outputs as the model output. -/
theorem claim_C6 (df : String) (nc : ℕ) :
    resnet50 df nc =
    ⟨resnet50StemNodes df ++
      convBlockNodes df 6 5 3 (64, 64, 256) 2 "a" (1, 1) ++
      identityBlockNodes df 18 17 3 (64, 64, 256) 2 "b" ++
      identityBlockNodes df 28 27 3 (64, 64, 256) 2 "c" ++
      convBlockNodes df 38 37 3 (128, 128, 512) 3 "a" (2, 2) ++
      identityBlockNodes df 50 49 3 (128, 128, 512) 3 "b" ++
      identityBlockNodes df 60 59 3 (128, 128, 512) 3 "c" ++
      identityBlockNodes df 70 69 3 (128, 128, 512) 3 "d" ++
      convBlockNodes df 80 79 3 (256, 256, 1024) 4 "a" (2, 2) ++
      identityBlockNodes df 92 91 3 (256, 256, 1024) 4 "b" ++
      identityBlockNodes df 102 101 3 (256, 256, 1024) 4 "c" ++
      identityBlockNodes df 112 111 3 (256, 256, 1024) 4 "d" ++
      identityBlockNodes df 122 121 3 (256, 256, 1024) 4 "e" ++
      identityBlockNodes df 132 131 3 (256, 256, 1024) 4 "f" ++
      convBlockNodes df 142 141 3 (512, 512, 2048) 5 "a" (2, 2) ++
      identityBlockNodes df 154 153 3 (512, 512, 2048) 5 "b" ++
      identityBlockNodes df 164 163 3 (512, 512, 2048) 5 "c" ++
      [⟨.globalAveragePooling2D "avg_pool", [173]⟩,
       ⟨.dense nc (some "softmax") (.randomNormal 0 (1/100)) "fc1000", [174]⟩],
      0, 175⟩ := by
  simp only [resnet50, conv_block_eq, identity_block_eq, addNode,
    List.length_append, length_resnet50StemNodes, length_convBlockNodes,
    length_identityBlockNodes, List.length_cons, List.length_nil,
    List.length_singleton]
  norm_num
  simp [List.append_assoc, resnet50StemNodes]
